import Mathlib

/-!
Shallow embedding of the EZyRB excerpt: the RBF approximation class
(ezyrb/rbf.py) and the ReducedOrderModel orchestrator
(ezyrb/reducedordermodel.py).

Numeric arrays are modelled as matrices over the rationals
(lists of rows); the shape-parameter epsilon, produced by a real power,
lives in the reals.  The external collaborators (database, reduction,
scaler, and the external RBF solver) are capability records holding
exactly the operations the source consumes.  Delegate calls made by the
orchestrator methods are recorded in explicit traces so that call order
and call count are provable facts of the embedding.
-/

namespace EZyRB

/-- A numeric vector (one row of a 2-D array). -/
abbrev Vec := List ℚ

/-- A 2-D numeric array as a list of rows. -/
abbrev Mat := List (List ℚ)

/-- numpy transpose (array.T) of a rectangular 2-D array: column j of
the input becomes row j of the output. -/
def transpose (m : Mat) : Mat :=
  match m.head? with
  | none => []
  | some r => (List.range r.length).map (fun j => m.map (fun row => row.getD j 0))

/-- Error raised when calling an unset (None) interpolator:
Python signals a TypeError, NoneType object is not callable. -/
inductive PredictError where
  | noneNotCallable
  deriving DecidableEq, Repr

/-- Errors that the default-epsilon block of RBF.fit can raise.
zeroDivision models the Python ZeroDivisionError from 1.0/edges.size
when the filtered edge array is empty; amaxEmpty models the numpy
ValueError from np.amax over an empty axis (zero points).  The external
RBFInterpolator constructor is modelled as total, so no other fit
failure is represented. -/
inductive FitError where
  | zeroDivision
  | amaxEmpty
  deriving DecidableEq, Repr

/-- The scaler capability consumed through database.scaler_snapshots:
only its inverse transform is used. -/
structure Scaler where
  inverse : Mat → Mat

/-- The database capability: parameter vectors, snapshot matrix and the
snapshot scaler.  Rows of parameters are parameter vectors; rows of
snapshots are snapshots (the orchestrator transposes before reducing). -/
structure Database where
  parameters : Mat
  snapshots : Mat
  scaler_snapshots : Scaler

/-- The reduction capability: reduce and expand transforms on matrices. -/
structure Reduction where
  reduce : Mat → Mat
  expand : Mat → Mat

/-- The operations the orchestrator consumes from an approximation object
with internal state of type A: fit returns the mutated state, predict is
a read-only query that can fail (e.g. unfit interpolator). -/
structure ApproxOps (A : Type) where
  fit : A → Mat → Mat → A
  predict : A → Mat → Except PredictError Mat

/-- The orchestrator state: references to the three collaborators,
exactly as stored by ReducedOrderModel.__init__. -/
structure ReducedOrderModel (A : Type) where
  database : Database
  reduction : Reduction
  approximation : A

/-- Trace of the delegate calls made by one run of
ReducedOrderModel.fit: the arguments of each reduction.reduce call and
the (points, values) pair of each approximation.fit call, in order. -/
structure FitTrace where
  reduceArgs : List Mat
  fitCalls : List (Mat × Mat)
  deriving Repr

/-- ReducedOrderModel.fit, traced.  Source:
self.approximation.fit(self.database.parameters,
self.reduction.reduce(self.database.snapshots.T)); return self. -/
def ReducedOrderModel.fitRun {A : Type} (ops : ApproxOps A)
    (r : ReducedOrderModel A) : ReducedOrderModel A × FitTrace :=
  let reduced := r.reduction.reduce (transpose r.database.snapshots)
  ({ r with approximation :=
      ops.fit r.approximation r.database.parameters reduced },
   { reduceArgs := [transpose r.database.snapshots],
     fitCalls := [(r.database.parameters, reduced)] })

/-- ReducedOrderModel.fit: the returned object (the orchestrator itself,
with the approximation state mutated by delegation). -/
def ReducedOrderModel.fit {A : Type} (ops : ApproxOps A)
    (r : ReducedOrderModel A) : ReducedOrderModel A :=
  (ReducedOrderModel.fitRun ops r).1

/-- Trace of one run of ReducedOrderModel.predict: every argument passed
to approximation.predict, in order, and every value printed by the
diagnostic print statement. -/
structure PredictTrace where
  calls : List Mat
  printed : List Mat
  deriving Repr

/-- ReducedOrderModel.predict, traced.  Source:
print(self.approximation.predict(mu));
return self.database.scaler_snapshots.inverse(
  self.reduction.expand(self.approximation.predict(mu))).
The two occurrences of self.approximation.predict(mu) are two separate
delegate calls; an exception in either aborts the method. -/
def ReducedOrderModel.predictRun {A : Type} (ops : ApproxOps A)
    (r : ReducedOrderModel A) (mu : Mat) :
    Except PredictError Mat × PredictTrace :=
  match ops.predict r.approximation mu with
  | .error e => (.error e, { calls := [mu], printed := [] })
  | .ok t1 =>
    match ops.predict r.approximation mu with
    | .error e => (.error e, { calls := [mu, mu], printed := [t1] })
    | .ok t2 =>
      (.ok (r.database.scaler_snapshots.inverse (r.reduction.expand t2)),
       { calls := [mu, mu], printed := [t1] })

/-- ReducedOrderModel.predict: the returned value (or propagated error). -/
def ReducedOrderModel.predict {A : Type} (ops : ApproxOps A)
    (r : ReducedOrderModel A) (mu : Mat) : Except PredictError Mat :=
  (ReducedOrderModel.predictRun ops r mu).1

/-- Construction-argument record of the external scipy RBFInterpolator.
The embedding models the external solver by remembering exactly the
arguments the source passes to its constructor. -/
structure RBFInterpolator where
  points : Mat
  values : Mat
  neighbors : Option ℕ
  smoothing : ℚ
  kernel : String
  epsilon : ℝ
  degree : Option ℤ

/-- State of an RBF approximation object (class RBF in ezyrb/rbf.py):
configuration fields set by the constructor, plus the fitted
interpolator and the stored fit points, both initially absent. -/
structure RBF where
  kernel : String
  smooth : ℚ
  neighbors : Option ℕ
  degree : Option ℤ
  epsilon : Option ℝ
  interpolator : Option RBFInterpolator
  xi : Option Mat

/-- RBF.__init__: stores the configuration and leaves interpolator and
xi unset (None). -/
def RBF.init (kernel : String) (smooth : ℚ) (neighbors : Option ℕ)
    (epsilon : Option ℝ) (degree : Option ℤ) : RBF :=
  { kernel := kernel, smooth := smooth, neighbors := neighbors,
    degree := degree, epsilon := epsilon, interpolator := none,
    xi := none }

/-- Maximum of one column (np.amax along axis 0 hits every column); the
empty case is unreachable for a nonempty rectangular input. -/
def listMax : List ℚ → ℚ
  | [] => 0
  | x :: xs => xs.foldl max x

/-- Minimum of one column (np.amin along axis 0). -/
def listMin : List ℚ → ℚ
  | [] => 0
  | x :: xs => xs.foldl min x

/-- edges = np.amax(xi, axis=0) - np.amin(xi, axis=0): the per-dimension
ranges of the point cloud, computed column-wise. -/
def ranges (pts : Mat) : List ℚ :=
  (transpose pts).map (fun c => listMax c - listMin c)

/-- edges = edges[np.nonzero(edges)]: the per-dimension ranges with the
zero entries removed. -/
def edgesNZ (pts : Mat) : List ℚ :=
  (ranges pts).filter (fun e => e ≠ 0)

/-- np.power(np.prod(edges)/N, 1.0/edges.size) with N = xi.shape[-1],
the per-point dimension count: the default epsilon heuristic of RBF.fit
(average inter-node distance over the bounding hypercube). -/
noncomputable def defaultEpsilon (pts : Mat) : ℝ :=
  (((edgesNZ pts).prod / (pts.headI.length : ℚ) : ℚ) : ℝ) ^
    ((1 : ℝ) / ((edgesNZ pts).length : ℝ))

/-- The kernel names for which RBF.fit overwrites the computed default
epsilon with 1. -/
def specialKernels : List String := ["thin_plate_spline", "cubic", "quintic"]

/-- RBF.fit: stores xi, then (only when epsilon is unset) computes the
default epsilon — raising ZeroDivisionError when every per-dimension
range is zero, or a ValueError from np.amax when there are no points —
overwrites it with 1 for the special kernels, and finally constructs the
external interpolator from the passed-through arguments.  Returns the
mutated state together with the error, if any, raised inside the
default-epsilon block; an error aborts before epsilon or interpolator is
assigned (xi has already been stored at that point). -/
noncomputable def RBF.fit (s : RBF) (points values : Mat) :
    RBF × Option FitError :=
  let s0 : RBF := { s with xi := some points }
  match s.epsilon with
  | some e =>
      let interp : RBFInterpolator :=
        { points := points, values := values, neighbors := s.neighbors,
          smoothing := s.smooth, kernel := s.kernel, epsilon := e,
          degree := s.degree }
      ({ s0 with interpolator := some interp }, none)
  | none =>
      if points.length = 0 then
        (s0, some FitError.amaxEmpty)
      else if (edgesNZ points).length = 0 then
        (s0, some FitError.zeroDivision)
      else
        let eps : ℝ :=
          if s.kernel ∈ specialKernels then 1 else defaultEpsilon points
        let interp : RBFInterpolator :=
          { points := points, values := values, neighbors := s.neighbors,
            smoothing := s.smooth, kernel := s.kernel, epsilon := eps,
            degree := s.degree }
        ({ s0 with epsilon := some eps, interpolator := some interp },
         none)

/-- RBF.predict: return self.interpolator(np.asarray(new_point)).  When
the interpolator is unset (fit never called) the call fails with the
NoneType-not-callable error; otherwise the external solver ev is
evaluated. -/
def RBF.predict (ev : RBFInterpolator → Mat → Mat) (s : RBF)
    (new_point : Mat) : Except PredictError Mat :=
  match s.interpolator with
  | none => .error PredictError.noneNotCallable
  | some i => .ok (ev i new_point)

/-- The RBF class packaged as the approximation capability consumed by
the orchestrator (the orchestrator never inspects the fit error, so it
is dropped here). -/
noncomputable def rbfOps (ev : RBFInterpolator → Mat → Mat) :
    ApproxOps RBF :=
  { fit := fun s p v => (RBF.fit s p v).1, predict := RBF.predict ev }

/-- C1: for every fitted ReducedOrderModel and every query mu (whenever
the approximation predict call succeeds with latent value l),
predict(mu) returns database.scaler_snapshots.inverse applied to
reduction.expand applied to that approximation.predict(mu) result: the
three delegates compose in exactly that order. -/
theorem rom_predict_composition {A : Type} (ops : ApproxOps A)
    (r : ReducedOrderModel A) (mu : Mat) (l : Mat)
    (h : ops.predict r.approximation mu = .ok l) :
    ReducedOrderModel.predict ops r mu =
      .ok (r.database.scaler_snapshots.inverse (r.reduction.expand l)) := by
  simp [ReducedOrderModel.predict, ReducedOrderModel.predictRun, h]

/-- Witness for C1 at a concrete model: identity reduction and scaler,
approximation state carrying the value it predicts. -/
theorem rom_predict_composition_witness :
    (ApproxOps.predict (A := Mat)
        { fit := fun _ _ v => v, predict := fun a _ => .ok a }
        [[3, 4]] [[0]] = .ok [[3, 4]]) ∧
    ReducedOrderModel.predict
        { fit := fun _ _ v => v, predict := fun a _ => .ok a }
        { database := { parameters := [[0]], snapshots := [[5, 6]],
                        scaler_snapshots := { inverse := fun m => m } },
          reduction := { reduce := fun m => m, expand := fun m => m },
          approximation := [[3, 4]] }
        [[0]] = .ok [[3, 4]] :=
  ⟨rfl, rom_predict_composition
    { fit := fun _ _ v => v, predict := fun a _ => .ok a }
    { database := { parameters := [[0]], snapshots := [[5, 6]],
                    scaler_snapshots := { inverse := fun m => m } },
      reduction := { reduce := fun m => m, expand := fun m => m },
      approximation := [[3, 4]] }
    [[0]] [[3, 4]] rfl⟩

/-- C2: fit() calls reduction.reduce on the transpose of
database.snapshots, passes the result as the values argument of
approximation.fit with database.parameters as the points argument, and
returns the orchestrator object itself (same collaborators, with the
approximation state replaced by the delegated fit result). -/
theorem rom_fit_delegation {A : Type} (ops : ApproxOps A)
    (r : ReducedOrderModel A) :
    (ReducedOrderModel.fitRun ops r).2.reduceArgs =
        [transpose r.database.snapshots] ∧
    (ReducedOrderModel.fitRun ops r).2.fitCalls =
        [(r.database.parameters,
          r.reduction.reduce (transpose r.database.snapshots))] ∧
    ReducedOrderModel.fit ops r =
        { r with approximation :=
            (ops.fit r.approximation r.database.parameters
              (r.reduction.reduce (transpose r.database.snapshots))) } :=
  ⟨rfl, rfl, rfl⟩

/-- C7: fit() only replaces the approximation state (via delegation);
the database and reduction references held by the orchestrator are the
very ones held before, unchanged (collaborators are immutable values in
this embedding, so the objects themselves are unchanged as well). -/
theorem rom_fit_frame {A : Type} (ops : ApproxOps A)
    (r : ReducedOrderModel A) :
    (ReducedOrderModel.fit ops r).database = r.database ∧
    (ReducedOrderModel.fit ops r).reduction = r.reduction ∧
    (ReducedOrderModel.fit ops r).approximation =
      ops.fit r.approximation r.database.parameters
        (r.reduction.reduce (transpose r.database.snapshots)) :=
  ⟨rfl, rfl, rfl⟩

/-- C10: in a successful run of ReducedOrderModel.predict(mu) the
approximation predict delegate is invoked exactly twice, both times with
argument mu; the first result is only printed as a diagnostic and the
second feeds reduction.expand, so the returned value comes from the
second invocation. -/
theorem rom_predict_double_call {A : Type} (ops : ApproxOps A)
    (r : ReducedOrderModel A) (mu : Mat) (l : Mat)
    (h : ops.predict r.approximation mu = .ok l) :
    (ReducedOrderModel.predictRun ops r mu).2.calls = [mu, mu] ∧
    (ReducedOrderModel.predictRun ops r mu).2.printed = [l] ∧
    (ReducedOrderModel.predictRun ops r mu).1 =
      .ok (r.database.scaler_snapshots.inverse (r.reduction.expand l)) := by
  simp [ReducedOrderModel.predictRun, h]

/-- Witness for C10 at the same concrete model as C1. -/
theorem rom_predict_double_call_witness :
    (ApproxOps.predict (A := Mat)
        { fit := fun _ _ v => v, predict := fun a _ => .ok a }
        [[7]] [[2]] = .ok [[7]]) ∧
    ((ReducedOrderModel.predictRun
        { fit := fun _ _ v => v, predict := fun a _ => .ok a }
        { database := { parameters := [[2]], snapshots := [[9]],
                        scaler_snapshots := { inverse := fun m => m } },
          reduction := { reduce := fun m => m, expand := fun m => m },
          approximation := [[7]] }
        [[2]]).2.calls = [[[2]], [[2]]] ∧
     (ReducedOrderModel.predictRun
        { fit := fun _ _ v => v, predict := fun a _ => .ok a }
        { database := { parameters := [[2]], snapshots := [[9]],
                        scaler_snapshots := { inverse := fun m => m } },
          reduction := { reduce := fun m => m, expand := fun m => m },
          approximation := [[7]] }
        [[2]]).2.printed = [[[7]]] ∧
     (ReducedOrderModel.predictRun
        { fit := fun _ _ v => v, predict := fun a _ => .ok a }
        { database := { parameters := [[2]], snapshots := [[9]],
                        scaler_snapshots := { inverse := fun m => m } },
          reduction := { reduce := fun m => m, expand := fun m => m },
          approximation := [[7]] }
        [[2]]).1 = .ok [[7]]) :=
  ⟨rfl, rom_predict_double_call
    { fit := fun _ _ v => v, predict := fun a _ => .ok a }
    { database := { parameters := [[2]], snapshots := [[9]],
                    scaler_snapshots := { inverse := fun m => m } },
      reduction := { reduce := fun m => m, expand := fun m => m },
      approximation := [[7]] }
    [[2]] [[7]] rfl⟩

/-- C5: round-trip.  For a reduction whose expand is the exact inverse of
reduce, an approximation that after fit() reproduces its fitted values
exactly when queried at the training parameters q, and a scaler inverse
mapping the (transposed) snapshot matrix back to the original snapshots,
fit() followed by predict(q) returns exactly the transposed original
snapshot matrix: its columns are the original snapshots, so querying the
k-th training parameter recovers the k-th original snapshot. -/
theorem rom_roundtrip {A : Type} (ops : ApproxOps A)
    (r : ReducedOrderModel A) (q : Mat) (origs : Mat)
    (hinv : ∀ m : Mat, r.reduction.expand (r.reduction.reduce m) = m)
    (hexact : ops.predict (ReducedOrderModel.fit ops r).approximation q =
        .ok (r.reduction.reduce (transpose r.database.snapshots)))
    (hscale : r.database.scaler_snapshots.inverse
        (transpose r.database.snapshots) = transpose origs) :
    ReducedOrderModel.predict ops (ReducedOrderModel.fit ops r) q =
      .ok (transpose origs) := by
  have hfit : ReducedOrderModel.fit ops r =
      { r with approximation :=
          (ops.fit r.approximation r.database.parameters
            (r.reduction.reduce (transpose r.database.snapshots))) } := rfl
  rw [ReducedOrderModel.predict, ReducedOrderModel.predictRun, hexact]
  simp only [hfit, hinv, hscale]

/-- Witness for C5: identity reduction and scaler, approximation state
remembering the fitted values, queried at the training parameters. -/
theorem rom_roundtrip_witness :
    (∀ m : Mat, Reduction.expand
        { reduce := fun x => x, expand := fun x => x }
        (Reduction.reduce { reduce := fun x => x, expand := fun x => x } m)
        = m) ∧
    (ApproxOps.predict (A := Mat)
        { fit := fun _ _ v => v, predict := fun a _ => .ok a }
        (ReducedOrderModel.fit
          { fit := fun _ _ v => v, predict := fun a _ => .ok a }
          { database := { parameters := [[0]], snapshots := [[1, 2]],
                          scaler_snapshots := { inverse := fun m => m } },
            reduction := { reduce := fun x => x, expand := fun x => x },
            approximation := [] }).approximation
        [[0]] = .ok [[1], [2]]) ∧
    (Scaler.inverse { inverse := fun m => m }
        (transpose [[1, 2]]) = transpose [[1, 2]]) ∧
    ReducedOrderModel.predict
        { fit := fun _ _ v => v, predict := fun a _ => .ok a }
        (ReducedOrderModel.fit
          { fit := fun _ _ v => v, predict := fun a _ => .ok a }
          { database := { parameters := [[0]], snapshots := [[1, 2]],
                          scaler_snapshots := { inverse := fun m => m } },
            reduction := { reduce := fun x => x, expand := fun x => x },
            approximation := [] })
        [[0]] = .ok (transpose [[1, 2]]) :=
  ⟨fun _ => rfl, rfl, rfl,
   rom_roundtrip
     { fit := fun _ _ v => v, predict := fun a _ => .ok a }
     { database := { parameters := [[0]], snapshots := [[1, 2]],
                     scaler_snapshots := { inverse := fun m => m } },
       reduction := { reduce := fun x => x, expand := fun x => x },
       approximation := [] }
     [[0]] [[1, 2]] (fun _ => rfl) rfl rfl⟩

/-- C6: a freshly-constructed RBF has its interpolator unset, any call
to its predict fails with the NoneType-not-callable failure instead of
returning a value, and a ReducedOrderModel built over such an unfit RBF
fails the same way on predict when fit() was never called. -/
theorem rbf_unfit_predict_fails (k : String) (sm : ℚ) (nb : Option ℕ)
    (eps : Option ℝ) (deg : Option ℤ) (ev : RBFInterpolator → Mat → Mat)
    (x : Mat) (db : Database) (red : Reduction) (mu : Mat) :
    (RBF.init k sm nb eps deg).interpolator = none ∧
    RBF.predict ev (RBF.init k sm nb eps deg) x =
      .error PredictError.noneNotCallable ∧
    ReducedOrderModel.predict (rbfOps ev)
      { database := db, reduction := red,
        approximation := RBF.init k sm nb eps deg } mu =
      .error PredictError.noneNotCallable := by
  refine ⟨rfl, rfl, ?_⟩
  simp [ReducedOrderModel.predict, ReducedOrderModel.predictRun, rbfOps,
    RBF.predict, RBF.init]

/-- Helper: with epsilon unset and the degenerate cases excluded, fit
stores as epsilon the computed default, overwritten by 1 for the special
kernels. -/
theorem rbf_fit_eps_none_formula (s : RBF) (pts vals : Mat)
    (h1 : s.epsilon = none) (h3 : ¬pts.length = 0)
    (h4 : ¬(edgesNZ pts).length = 0) :
    (RBF.fit s pts vals).1.epsilon =
      some (if s.kernel ∈ specialKernels then 1 else defaultEpsilon pts) := by
  simp only [RBF.fit, h1]
  rw [if_neg h3, if_neg h4]

/-- Helper: with epsilon unset and the degenerate cases excluded, fit
completes without error. -/
theorem rbf_fit_eps_none_success (s : RBF) (pts vals : Mat)
    (h1 : s.epsilon = none) (h3 : ¬pts.length = 0)
    (h4 : ¬(edgesNZ pts).length = 0) :
    (RBF.fit s pts vals).2 = none := by
  simp only [RBF.fit, h1]
  rw [if_neg h3, if_neg h4]

/-- Helper: a successful fit that started with epsilon unset implies the
two degenerate conditions did not hold. -/
theorem rbf_fit_success_conds (s : RBF) (pts vals : Mat)
    (h1 : s.epsilon = none) (h3 : (RBF.fit s pts vals).2 = none) :
    ¬pts.length = 0 ∧ ¬(edgesNZ pts).length = 0 := by
  have hA : ¬pts.length = 0 := by
    intro hc1
    simp only [RBF.fit, h1, if_pos hc1] at h3
    simp at h3
  have hB : ¬(edgesNZ pts).length = 0 := by
    intro hc2
    simp only [RBF.fit, h1, if_neg hA, if_pos hc2] at h3
    simp at h3
  exact ⟨hA, hB⟩

/-- C3: when epsilon is unset and at least one dimension of the points
has nonzero range, fit assigns as epsilon the product of the nonzero
per-dimension ranges divided by the dimension count, raised to the power
one over the number of nonzero-range dimensions (this is the final value
for every kernel outside the special set); in particular for the points
[[0,0],[1,0],[0,1],[1,1]] and such a kernel the computed epsilon is
(1*1/2)^(1/2). -/
theorem rbf_fit_default_epsilon (s : RBF) (pts vals : Mat)
    (h1 : s.epsilon = none) (h2 : s.kernel ∉ specialKernels)
    (h3 : pts.length ≠ 0) (h4 : (edgesNZ pts).length ≠ 0) :
    ((RBF.fit s pts vals).1.epsilon =
      some (((((ranges pts).filter (fun e => e ≠ 0)).prod /
          (pts.headI.length : ℚ) : ℚ) : ℝ) ^
        ((1 : ℝ) / (((ranges pts).filter (fun e => e ≠ 0)).length : ℝ)))) ∧
    (RBF.fit (RBF.init "gaussian" 0 none none none)
        [[0, 0], [1, 0], [0, 1], [1, 1]] vals).1.epsilon =
      some ((1 * 1 / 2 : ℝ) ^ ((1 : ℝ) / (2 : ℝ))) := by
  constructor
  · rw [rbf_fit_eps_none_formula s pts vals h1 h3 h4, if_neg h2]
    rfl
  · have he : edgesNZ ([[0, 0], [1, 0], [0, 1], [1, 1]] : Mat) = [1, 1] := by
      norm_num [edgesNZ, ranges, transpose, listMax, listMin, List.range_succ]
    have hnz : ¬(edgesNZ ([[0, 0], [1, 0], [0, 1], [1, 1]] : Mat)).length = 0 := by
      rw [he]; simp
    rw [rbf_fit_eps_none_formula (RBF.init "gaussian" 0 none none none)
      [[0, 0], [1, 0], [0, 1], [1, 1]] vals rfl (by decide) hnz]
    simp only [RBF.init]
    rw [if_neg (by decide : ¬(("gaussian" : String) ∈ specialKernels))]
    simp only [defaultEpsilon, he]
    norm_num [List.headI, List.prod_cons, List.prod_nil]

/-- Witness for C3, applying the theorem at the literal point set of the
claim with the gaussian kernel. -/
theorem rbf_fit_default_epsilon_witness :
    ((RBF.init "gaussian" 0 none none none).epsilon = none) ∧
    (("gaussian" : String) ∉ specialKernels) ∧
    (([[0, 0], [1, 0], [0, 1], [1, 1]] : Mat).length ≠ 0) ∧
    ((edgesNZ [[0, 0], [1, 0], [0, 1], [1, 1]]).length ≠ 0) ∧
    (RBF.fit (RBF.init "gaussian" 0 none none none)
        [[0, 0], [1, 0], [0, 1], [1, 1]] []).1.epsilon =
      some ((1 * 1 / 2 : ℝ) ^ ((1 : ℝ) / (2 : ℝ))) := by
  have hnz : ¬(edgesNZ ([[0, 0], [1, 0], [0, 1], [1, 1]] : Mat)).length = 0 := by
    norm_num [edgesNZ, ranges, transpose, listMax, listMin, List.range_succ]
  exact ⟨rfl, by decide, by decide, hnz,
    (rbf_fit_default_epsilon (RBF.init "gaussian" 0 none none none)
      [[0, 0], [1, 0], [0, 1], [1, 1]] [] rfl (by decide) (by decide) hnz).2⟩

/-- Counterexample to C4 as stated: an RBF with kernel cubic whose
epsilon was set at construction (to 5) keeps epsilon 5 after fit — the
forcing to 1 sits inside the epsilon-unset branch, so a preset epsilon
is never overwritten even for the special kernels. -/
theorem rbf_forced_epsilon_cex :
    ("cubic" : String) ∈ specialKernels ∧
    (RBF.fit (RBF.init "cubic" 0 none (some 5) none)
        [[0], [1]] [[0], [1]]).1.epsilon = some (5 : ℝ) ∧
    (RBF.fit (RBF.init "cubic" 0 none (some 5) none)
        [[0], [1]] [[0], [1]]).1.epsilon ≠ some (1 : ℝ) := by
  have h5 : (RBF.fit (RBF.init "cubic" 0 none (some 5) none)
      [[0], [1]] [[0], [1]]).1.epsilon = some (5 : ℝ) := rfl
  refine ⟨by decide, h5, ?_⟩
  rw [h5]
  simp only [ne_eq, Option.some.injEq]
  norm_num

/-- C4 amended: for a kernel in {thin_plate_spline, cubic, quintic},
after any call to fit that starts with epsilon unset and completes
without error, epsilon equals 1 regardless of the input point spread and
of the computed default. -/
theorem rbf_forced_epsilon_amended (s : RBF) (pts vals : Mat)
    (h1 : s.kernel ∈ specialKernels) (h2 : s.epsilon = none)
    (h3 : (RBF.fit s pts vals).2 = none) :
    (RBF.fit s pts vals).1.epsilon = some 1 := by
  obtain ⟨hA, hB⟩ := rbf_fit_success_conds s pts vals h2 h3
  rw [rbf_fit_eps_none_formula s pts vals h2 hA hB, if_pos h1]

/-- Witness for C4 amended: thin_plate_spline kernel, epsilon unset,
well-spread points. -/
theorem rbf_forced_epsilon_amended_witness :
    (("thin_plate_spline" : String) ∈ specialKernels) ∧
    ((RBF.init "thin_plate_spline" 0 none none none).epsilon = none) ∧
    ((RBF.fit (RBF.init "thin_plate_spline" 0 none none none)
        [[0], [9]] []).2 = none) ∧
    (RBF.fit (RBF.init "thin_plate_spline" 0 none none none)
        [[0], [9]] []).1.epsilon = some 1 := by
  have hnz : ¬(edgesNZ ([[0], [9]] : Mat)).length = 0 := by
    norm_num [edgesNZ, ranges, transpose, listMax, listMin, List.range_succ]
  have hs : (RBF.fit (RBF.init "thin_plate_spline" 0 none none none)
      [[0], [9]] []).2 = none :=
    rbf_fit_eps_none_success (RBF.init "thin_plate_spline" 0 none none none)
      [[0], [9]] [] rfl (by decide) hnz
  exact ⟨by decide, rfl, hs,
    rbf_forced_epsilon_amended (RBF.init "thin_plate_spline" 0 none none none)
      [[0], [9]] [] (by decide) rfl hs⟩

/-- C8: after a successful RBF.fit the epsilon field is set, and any fit
call on a state whose epsilon is already set (whatever the point set,
even a degenerate one, and whatever the kernel) leaves epsilon unchanged
and never enters the default-epsilon computation: no recomputed
heuristic, no forcing to 1, no zero-division failure. -/
theorem rbf_epsilon_persistent (s : RBF) (pts vals : Mat) (s2 : RBF)
    (pts2 vals2 : Mat) (h : (RBF.fit s pts vals).2 = none)
    (h2 : s2.epsilon.isSome = true) :
    (RBF.fit s pts vals).1.epsilon.isSome = true ∧
    (RBF.fit s2 pts2 vals2).1.epsilon = s2.epsilon ∧
    (RBF.fit s2 pts2 vals2).2 = none := by
  refine ⟨?_, ?_, ?_⟩
  · cases heps : s.epsilon with
    | some e => simp [RBF.fit, heps]
    | none =>
      obtain ⟨hA, hB⟩ := rbf_fit_success_conds s pts vals heps h
      rw [rbf_fit_eps_none_formula s pts vals heps hA hB]
      rfl
  · obtain ⟨e, he⟩ := Option.isSome_iff_exists.mp h2
    simp [RBF.fit, he]
  · obtain ⟨e, he⟩ := Option.isSome_iff_exists.mp h2
    simp [RBF.fit, he]

/-- Witness for C8: a first successful fit on well-spread points, then a
state with epsilon preset queried with an all-identical point set — the
epsilon is kept and no failure occurs. -/
theorem rbf_epsilon_persistent_witness :
    ((RBF.fit (RBF.init "gaussian" 0 none none none) [[0], [9]] []).2 =
      none) ∧
    ((RBF.init "multiquadric" 0 none (some 2) none).epsilon.isSome =
      true) ∧
    ((RBF.fit (RBF.init "gaussian" 0 none none none)
        [[0], [9]] []).1.epsilon.isSome = true ∧
     (RBF.fit (RBF.init "multiquadric" 0 none (some 2) none)
        [[3], [3]] []).1.epsilon =
       (RBF.init "multiquadric" 0 none (some 2) none).epsilon ∧
     (RBF.fit (RBF.init "multiquadric" 0 none (some 2) none)
        [[3], [3]] []).2 = none) := by
  have hnz : ¬(edgesNZ ([[0], [9]] : Mat)).length = 0 := by
    norm_num [edgesNZ, ranges, transpose, listMax, listMin, List.range_succ]
  have hs : (RBF.fit (RBF.init "gaussian" 0 none none none)
      [[0], [9]] []).2 = none :=
    rbf_fit_eps_none_success (RBF.init "gaussian" 0 none none none)
      [[0], [9]] [] rfl (by decide) hnz
  exact ⟨hs, rfl,
    rbf_epsilon_persistent (RBF.init "gaussian" 0 none none none)
      [[0], [9]] [] (RBF.init "multiquadric" 0 none (some 2) none)
      [[3], [3]] [] hs rfl⟩

/-- C9: with epsilon unset and every per-dimension range zero (for a
nonempty point set, e.g. all points identical), the filtered edge array
is empty and fit fails with the zero-division error before any
interpolator is constructed: the returned state differs from the input
state only in the stored points field, so epsilon and interpolator are
as before (in particular still unset when they were unset). -/
theorem rbf_fit_all_zero_range (s : RBF) (pts vals : Mat)
    (h1 : s.epsilon = none) (h2 : ¬pts.length = 0)
    (h3 : ∀ e ∈ ranges pts, e = 0) :
    RBF.fit s pts vals =
      ({ s with xi := some pts }, some FitError.zeroDivision) ∧
    (RBF.fit s pts vals).1.epsilon = none ∧
    (RBF.fit s pts vals).1.interpolator = s.interpolator ∧
    (RBF.fit s pts vals).1.xi = some pts := by
  have hedges : edgesNZ pts = [] := by
    rw [edgesNZ, List.filter_eq_nil_iff]
    intro a ha
    simp [h3 a ha]
  have hmain : RBF.fit s pts vals =
      ({ s with xi := some pts }, some FitError.zeroDivision) := by
    simp only [RBF.fit, h1]
    rw [if_neg h2, if_pos (by rw [hedges]; rfl)]
  refine ⟨hmain, ?_, ?_, ?_⟩
  · rw [hmain]
    simp [h1]
  · rw [hmain]
  · rw [hmain]

/-- Witness for C9: two identical points. -/
theorem rbf_fit_all_zero_range_witness :
    ((RBF.init "gaussian" 0 none none none).epsilon = none) ∧
    (¬([[1, 2], [1, 2]] : Mat).length = 0) ∧
    (∀ e ∈ ranges ([[1, 2], [1, 2]] : Mat), e = 0) ∧
    RBF.fit (RBF.init "gaussian" 0 none none none) [[1, 2], [1, 2]] [] =
      ({ RBF.init "gaussian" 0 none none none with
          xi := some [[1, 2], [1, 2]] },
       some FitError.zeroDivision) := by
  have hr : ranges ([[1, 2], [1, 2]] : Mat) = [0, 0] := by
    norm_num [ranges, transpose, listMax, listMin, List.range_succ]
  have hz : ∀ e ∈ ranges ([[1, 2], [1, 2]] : Mat), e = 0 := by
    rw [hr]
    intro e he
    rcases List.mem_cons.mp he with h | h
    · exact h
    · simpa using h
  exact ⟨rfl, by decide, hz,
    (rbf_fit_all_zero_range (RBF.init "gaussian" 0 none none none)
      [[1, 2], [1, 2]] [] rfl (by decide) hz).1⟩

end EZyRB
